import Mathlib

/-!
Verification development for the UMAI payment receiver module
(`lib/receiver.js` routing layer plus the example implementation's
`validate` / `process` / `get` / `cancel` / `list` methods and the SQL
schema in `db/migrations`).

Modelling conventions:
* Monetary values (`numeric(8,2)` amounts, `numeric(12,2)` balances) are
  exact decimals; they are embedded as integers counting hundredths
  (cents), so arithmetic is exact.  Overflow of the numeric precision is
  not modelled.
* SQL timestamps are `Nat`; `NOW()` is supplied as an explicit `now`
  argument to the operations that use it.
* Each database operation is a pure function from the store state `DB`
  to a result plus a new state.  A `Fault` argument injects the
  connection/query/commit failures that the JavaScript callbacks can
  observe; `Fault.none` is the failure-free run.
* The PostgreSQL behaviour relevant here is modelled explicitly: the
  unique index `transactions_external_id_idx` makes a duplicate insert
  fail with error code 23505, the `CHECK ("amount" > 0.00)` and
  `CHECK ("balance" >= 0.00)` constraints fail writes that violate them,
  and an aborted transaction leaves the store unchanged.
-/

namespace UmaiReceiver

/-- `account_status` enum from the accounts migration. -/
inductive AccStatus where
  | active
  | suspended
  | deleted
deriving DecidableEq, Repr

/-- `transaction_status` enum from the transactions migration. -/
inductive TxStatus where
  | initialized
  | pending
  | processing
  | success
  | failure
  | cancelled
deriving DecidableEq, Repr

/-- One row of the `accounts` table. -/
structure Account where
  id : Nat
  requisite : String
  fullName : String
  status : AccStatus
  balance : Int
deriving DecidableEq, Repr

/-- One row of the `transactions` table. -/
structure Txn where
  id : Nat
  externalId : String
  accountId : Nat
  requisite : String
  amount : Int
  status : TxStatus
  message : Option String
  initAt : Nat
  completed : Option Nat
  cancelled : Option Nat
deriving DecidableEq, Repr

/-- The durable store: the two tables plus the `bigserial` counter that
generates `transactions.id`. -/
structure DB where
  accounts : List Account
  transactions : List Txn
  nextId : Nat
deriving DecidableEq, Repr

/-- A database error as surfaced by the `pg` driver: an error code, an
optional violated-constraint name, and a message. -/
structure DbError where
  code : Nat
  constraintName : Option String
  message : String
deriving DecidableEq, Repr

/-- `isDuplicateIdConstraint` from `example/server.js`: an
"external id duplication" error is code 23505 on
`transactions_external_id_idx`. -/
def isDuplicateIdConstraint (err : DbError) : Bool :=
  err.code == 23505 && err.constraintName == some ("transactions_external_id_idx")

/-- The duplicate-key error raised by the unique index
`transactions_external_id_idx`. -/
def dupIdError : DbError :=
  ⟨23505, some ("transactions_external_id_idx"), ("duplicate key value violates unique constraint")⟩

/-- The check-violation error raised by `CHECK ("amount" > 0.00)`. -/
def amountCheckError : DbError :=
  ⟨23514, some ("transactions_amount_check"), ("new row violates check constraint")⟩

/-- The check-violation error raised by `CHECK ("balance" >= 0.00)`. -/
def balanceCheckError : DbError :=
  ⟨23514, some ("accounts_balance_check"), ("new row violates check constraint")⟩

/-- Modelled from the spec: `lib/status-map.js` is required by
`lib/receiver.js` but is not among the provided sources.  The spec fixes
the outcome vocabulary (OK, ACCEPTED, NOT_FOUND, FORBIDDEN, BAD_REQUEST,
INTERNAL, NOT_IMPLEMENTED, plus the transport's UNPROCESSABLE_ENTITY),
and the integration test pins them to the standard HTTP codes. -/
def STATUS_OK : Nat := 200

/-- 202 Accepted (asynchronous acknowledgment). -/
def STATUS_ACCEPTED : Nat := 202

/-- 400 Bad Request. -/
def STATUS_BAD_REQUEST : Nat := 400

/-- 403 Forbidden. -/
def STATUS_FORBIDDEN : Nat := 403

/-- 404 Not Found. -/
def STATUS_NOT_FOUND : Nat := 404

/-- 422 Unprocessable Entity. -/
def STATUS_UNPROCESSABLE_ENTITY : Nat := 422

/-- 500 Internal Server Error. -/
def STATUS_INTERNAL_SERVER_ERROR : Nat := 500

/-- 501 Not Implemented. -/
def STATUS_NOT_IMPLEMENTED : Nat := 501

/-- `err.toString()` on the error object handed to a callback: the
description of the underlying failure. -/
def errToString (e : DbError) : String := e.message

/-- An injected storage failure for one operation run.  `Fault.none`
means every connection, query and commit succeeds. -/
inductive Fault where
  | none
  | onConnect (e : DbError)
  | onSelect (e : DbError)
  | onInsert (e : DbError)
  | onBalance (e : DbError)
  | onStatus (e : DbError)
  | onCommit (e : DbError)
deriving DecidableEq, Repr

/-- The `Transaction` representation object built by the example's
`Transaction(row)` constructor (the JSON entity served to UMAI). -/
structure Entity where
  id : String
  requisite : String
  amount : Int
  status : TxStatus
  message : Option String
  timestamp : Option Nat
  internalId : Nat
  internalCancelled : Option Nat
deriving DecidableEq, Repr

/-- `new Transaction(row)` from `example/server.js`:
`id` is the external id; `message` is assigned only when truthy;
`timestamp` is issued from the `completed` column whenever that column
is set (a completion datetime); `internal.cancelled` is assigned only
when the `cancelled` column is set. -/
def Transaction.ofRow (row : Txn) : Entity :=
  { id := row.externalId
    requisite := row.requisite
    amount := row.amount
    status := row.status
    message :=
      match row.message with
      | some m => if m == ("") then none else some m
      | none => none
    timestamp := row.completed
    internalId := row.id
    internalCancelled := row.cancelled }

/-- A JavaScript callback `body` argument: absent, a string, an entity,
or an entity list. -/
inductive JsBody where
  | undef
  | str (s : String)
  | ent (t : Entity)
  | entList (l : List Entity)
deriving DecidableEq, Repr

/-- JavaScript truthiness of a callback body (`undefined` and the empty
string are falsy; objects and arrays are truthy). -/
def JsBody.truthy : JsBody → Bool
  | .undef => false
  | .str s => !(s == (""))
  | .ent _ => true
  | .entList _ => true

/-- Result of the `#validate` implementation's callback. -/
inductive VRes where
  | fail (e : DbError)
  | ok (status : Nat) (body : JsBody)
deriving DecidableEq, Repr

/-- Result of the `#process` implementation's callback.  `crash` marks
the path where the JavaScript throws (`account` is `undefined` and
`account.id` is dereferenced), so no callback ever fires. -/
inductive PRes where
  | crash
  | fail (e : DbError)
  | ok (status : Nat) (body : JsBody)
deriving DecidableEq, Repr

/-- Result of the `#cancel` implementation's callback.  `hang` marks the
connection-error path, where the source calls `done(err)` instead of the
request callback, so no response is ever produced. -/
inductive CRes where
  | hang
  | fail (e : DbError)
  | ok (status : Nat) (body : JsBody)
deriving DecidableEq, Repr

/-- Result of the `#get` implementation's callback. -/
inductive GRes where
  | fail (e : DbError)
  | ok (status : Nat) (body : JsBody)
deriving DecidableEq, Repr

/-- The example `#validate`: look the account up by requisite; missing
account is 404 with a message, a non-`active` account is 403 with
"Please activate your account", otherwise 200 with the account's
`full_name`.  Never mutates the store.  The requisite parameter is
optional because the transactions route does not guard it. -/
def validate (fault : Fault) (db : DB) (requisite : Option String) : VRes :=
  match fault with
  | .onConnect e => .fail e
  | .onSelect e => .fail e
  | _ =>
    match db.accounts.find? (fun a => some a.requisite == requisite) with
    | none => .ok STATUS_NOT_FOUND (.str ("account doesn\x27t exist"))
    | some account =>
      if account.status != AccStatus.active then
        .ok STATUS_FORBIDDEN (.str ("Please activate your account"))
      else
        .ok STATUS_OK (.str account.fullName)

/-- The example `#process`, one database transaction:
`SELECT … FOR UPDATE` on the account by requisite, then
`INSERT INTO transactions (…, status, completed) VALUES (…, 'success', NOW())`,
then `UPDATE accounts SET balance = balance + amount`, then `COMMIT`.
A duplicate-external-id insert failure is reinterpreted as the
already-processed success (200, untouched store); every other failure
aborts the transaction and propagates the error.  If no account row
matches the requisite the JavaScript dereferences `undefined` and
crashes. -/
def process (fault : Fault) (db : DB) (now : Nat)
    (id requisite : String) (amount : Int) : PRes × DB :=
  match fault with
  | .onConnect e => (.fail e, db)
  | .onSelect e => (.fail e, db)
  | _ =>
    match db.accounts.find? (fun a => a.requisite == requisite) with
    | none => (.crash, db)
    | some account =>
      -- INSERT step: CHECK ("amount" > 0.00), then the unique index on
      -- external_id, then any injected insert failure.
      if amount ≤ 0 then
        (.fail amountCheckError, db)
      else if db.transactions.any (fun t => t.externalId == id) then
        (.ok STATUS_OK .undef, db)
      else
        match fault with
        | .onInsert e =>
          if isDuplicateIdConstraint e then (.ok STATUS_OK .undef, db)
          else (.fail e, db)
        | .onBalance e => (.fail e, db)
        | .onCommit e => (.fail e, db)
        | _ =>
          -- UPDATE step: CHECK ("balance" >= 0.00) on the updated row.
          if db.accounts.any (fun a => a.id == account.id && a.balance + amount < 0) then
            (.fail balanceCheckError, db)
          else
            (.ok STATUS_OK .undef,
             { accounts := db.accounts.map (fun a =>
                 if a.id == account.id then { a with balance := a.balance + amount } else a)
               transactions := db.transactions ++
                 [{ id := db.nextId
                    externalId := id
                    accountId := account.id
                    requisite := requisite
                    amount := amount
                    status := TxStatus.success
                    message := none
                    initAt := now
                    completed := some now
                    cancelled := none }]
               nextId := db.nextId + 1 })

/-- The example `#get`: select the transaction by external id; 404 with
a message when absent, otherwise 200 with the `Transaction` entity.
Never mutates the store. -/
def get (fault : Fault) (db : DB) (id : String) : GRes :=
  match fault with
  | .onConnect e => .fail e
  | .onSelect e => .fail e
  | _ =>
    match db.transactions.find? (fun t => t.externalId == id) with
    | none => .ok STATUS_NOT_FOUND (.str ("transaction doesn\x27t exist"))
    | some row => .ok STATUS_OK (.ent (Transaction.ofRow row))

/-- The example `#cancel`, one database transaction:
`SELECT … FOR UPDATE` on the transaction by external id; no row is 404;
an already-`cancelled` row aborts with 200 (idempotent); otherwise
`UPDATE accounts SET balance = balance - amount` (subject to the
`CHECK ("balance" >= 0.00)`), then
`UPDATE transactions SET status = 'cancelled'` — note that this UPDATE
sets only the status column and never writes the `cancelled` timestamp
column — then `COMMIT`.  On a connection error the source calls
`done(err)` instead of the request callback, so the request hangs. -/
def cancel (fault : Fault) (db : DB) (id : String) : CRes × DB :=
  match fault with
  | .onConnect _ => (.hang, db)
  | .onSelect e => (.fail e, db)
  | _ =>
    match db.transactions.find? (fun t => t.externalId == id) with
    | none => (.ok STATUS_NOT_FOUND .undef, db)
    | some txnRow =>
      if txnRow.status == TxStatus.cancelled then
        (.ok STATUS_OK .undef, db)
      else
        match fault with
        | .onBalance e => (.fail e, db)
        | _ =>
          if db.accounts.any (fun a => a.id == txnRow.accountId && a.balance - txnRow.amount < 0) then
            (.fail balanceCheckError, db)
          else
            match fault with
            | .onStatus e => (.fail e, db)
            | .onCommit e => (.fail e, db)
            | _ =>
              (.ok STATUS_OK .undef,
               { db with
                 accounts := db.accounts.map (fun a =>
                   if a.id == txnRow.accountId then { a with balance := a.balance - txnRow.amount } else a)
                 transactions := db.transactions.map (fun t =>
                   if t.externalId == id then { t with status := TxStatus.cancelled } else t) })

/-- The example `#list`: `SELECT * FROM transactions WHERE completed
BETWEEN $1 AND $2` when an end bound is given, else `WHERE completed >=
$1`.  SQL comparisons with a NULL `completed` are never true, so
never-completed rows are excluded.  Never mutates the store. -/
def list (fault : Fault) (db : DB) (rangeStart : Nat) (rangeEnd : Option Nat) : GRes :=
  match fault with
  | .onConnect e => .fail e
  | .onSelect e => .fail e
  | _ =>
    .ok STATUS_OK (.entList
      ((db.transactions.filter (fun t =>
          match t.completed, rangeEnd with
          | some c, some e2 => decide (rangeStart ≤ c) && decide (c ≤ e2)
          | some c, none => decide (rangeStart ≤ c)
          | none, _ => false)).map Transaction.ofRow))

/-! ## Transport layer (`lib/receiver.js` route handlers)

The `PaymentReceiver` constructor wires Express routes to the
implementation methods it was given, so the handlers below are
parametrized over those methods exactly as the library is. -/

/-- An HTTP response body as finally sent. `statusText` stands for
`res.sendStatus(status)` (the status text is the body). -/
inductive RBody where
  | statusText
  | str (s : String)
  | ent (t : Entity)
  | entList (l : List Entity)
deriving DecidableEq, Repr

/-- An HTTP response: the status code and the body sent. -/
structure HttpResp where
  status : Nat
  body : RBody
deriving DecidableEq, Repr

/-- `res.status(status).send(body)` for a callback body. -/
def render : JsBody → RBody
  | .undef => .statusText
  | .str s => .str s
  | .ent t => .ent t
  | .entList l => .entList l

/-- The `respond` helper of `lib/receiver.js`: falsy bodies become
`res.sendStatus(status)`, truthy ones `res.status(status).send(body)`. -/
def respond (status : Nat) (body : JsBody) : HttpResp :=
  if body.truthy then ⟨status, render body⟩ else ⟨status, .statusText⟩

/-- The request parameter object: the fields of the JSON body and route
parameters that the transactions route reads.  `none` is a JavaScript
`undefined` field. -/
structure JsParams where
  id : Option String
  requisite : Option String
  amount : Option Int
  timestamp : Option String
deriving DecidableEq, Repr

/-- The empty object literal `{}`. -/
def emptyParams : JsParams := ⟨none, none, none, none⟩

/-- `_.merge(dst, src)` restricted to the route's flat parameter object:
for every key, a defined source value overrides the destination. -/
def lodashMerge (dst src : JsParams) : JsParams :=
  { id := match src.id with | some v => some v | none => dst.id
    requisite := match src.requisite with | some v => some v | none => dst.requisite
    amount := match src.amount with | some v => some v | none => dst.amount
    timestamp := match src.timestamp with | some v => some v | none => dst.timestamp }

/-- `req.params` of the `/api/transactions/:id` routes: the matched
route always defines `id`. -/
def routeParams (pathId : String) : JsParams :=
  { emptyParams with id := some pathId }

/-- `_.merge({}, req.body, req.params)` as computed by the POST
transactions handler. -/
def mergedParams (body : JsParams) (pathId : String) : JsParams :=
  lodashMerge (lodashMerge emptyParams body) (routeParams pathId)

/-- JavaScript truthiness of the `amount` parameter: `undefined` and `0`
are falsy (`!params.amount`). -/
def truthyAmount : Option Int → Bool
  | none => false
  | some a => !(a == 0)

/-- JavaScript truthiness of a string parameter: `undefined` and the
empty string are falsy. -/
def truthyString : Option String → Bool
  | none => false
  | some s => !(s == (""))

/-- Everything observable about one POST `/api/transactions/:id`
request: the arguments of every `#validate`, `#process` and `#get`
invocation the handler made, the response sent (`none` when no callback
ever fired), and the final store. -/
structure PostTrace where
  validateArgs : List JsParams
  processArgs : List JsParams
  getArgs : List String
  resp : Option HttpResp
  db : DB
deriving DecidableEq, Repr

/-- The POST `/api/transactions/:id` handler of `lib/receiver.js`:
merge body and route params (route params last), reject a falsy
`amount` then a falsy `timestamp` with 400, reject an unparseable
`timestamp` with 422, then run `#validate`; a validate error is 500, a
non-OK validate status is responded verbatim; otherwise run `#process`;
a process error is 500; a process OK status triggers exactly one `#get`
on `params.id` whose outcome is responded; any other process status is
responded directly. -/
def postTransactions
    (validateFn : DB → JsParams → VRes)
    (processFn : DB → JsParams → PRes × DB)
    (getFn : DB → String → GRes)
    (parseDate : String → Option Nat)
    (db : DB) (body : JsParams) (pathId : String) : PostTrace :=
  let params := mergedParams body pathId
  if !(truthyAmount params.amount) then
    ⟨[], [], [], some ⟨STATUS_BAD_REQUEST, .str ("missing parameter \x60amount\x60")⟩, db⟩
  else if !(truthyString params.timestamp) then
    ⟨[], [], [], some ⟨STATUS_BAD_REQUEST, .str ("missing parameter \x60timestamp\x60")⟩, db⟩
  else
    match parseDate ((params.timestamp).getD ("")) with
    | none =>
      ⟨[], [], [], some ⟨STATUS_UNPROCESSABLE_ENTITY,
        .str ("parameter \x60timestamp\x60 is not a valid ISO datetime")⟩, db⟩
    | some _ =>
      match validateFn db params with
      | .fail e =>
        ⟨[params], [], [], some ⟨STATUS_INTERNAL_SERVER_ERROR, .str (errToString e)⟩, db⟩
      | .ok vStatus vBody =>
        if vStatus != STATUS_OK then
          ⟨[params], [], [], some (respond vStatus vBody), db⟩
        else
          match processFn db params with
          | (.crash, db2) => ⟨[params], [params], [], none, db2⟩
          | (.fail e, db2) =>
            ⟨[params], [params], [],
             some ⟨STATUS_INTERNAL_SERVER_ERROR, .str (errToString e)⟩, db2⟩
          | (.ok pStatus pBody, db2) =>
            if pStatus == STATUS_OK then
              match getFn db2 ((params.id).getD ("")) with
              | .fail e =>
                ⟨[params], [params], [(params.id).getD ("")],
                 some ⟨STATUS_INTERNAL_SERVER_ERROR, .str (errToString e)⟩, db2⟩
              | .ok gStatus gBody =>
                ⟨[params], [params], [(params.id).getD ("")],
                 some (respond gStatus gBody), db2⟩
            else
              ⟨[params], [params], [], some (respond pStatus pBody), db2⟩

/-- Everything observable about one DELETE `/api/transactions/:id`
request. -/
structure DelTrace where
  cancelArgs : List String
  getArgs : List String
  resp : Option HttpResp
  db : DB
deriving DecidableEq, Repr

/-- The DELETE `/api/transactions/:id` handler of `lib/receiver.js`:
run `#cancel` on the path id; an error is 500; an OK status triggers
exactly one `#get` on the same id whose status and body are sent
directly; any other status is responded directly. -/
def deleteTransactions
    (cancelFn : DB → String → CRes × DB)
    (getFn : DB → String → GRes)
    (db : DB) (pathId : String) : DelTrace :=
  match cancelFn db pathId with
  | (.hang, db2) => ⟨[pathId], [], none, db2⟩
  | (.fail e, db2) =>
    ⟨[pathId], [], some ⟨STATUS_INTERNAL_SERVER_ERROR, .str (errToString e)⟩, db2⟩
  | (.ok cStatus cBody, db2) =>
    if cStatus == STATUS_OK then
      match getFn db2 pathId with
      | .fail e =>
        ⟨[pathId], [pathId], some ⟨STATUS_INTERNAL_SERVER_ERROR, .str (errToString e)⟩, db2⟩
      | .ok gStatus gBody => ⟨[pathId], [pathId], some ⟨gStatus, render gBody⟩, db2⟩
    else
      ⟨[pathId], [], some (respond cStatus cBody), db2⟩

/-! ## Example implementation plugged into the handlers -/

/-- The example `#validate` in the shape the handler consumes (it reads
only `params.requisite`). -/
def exValidate (fault : Fault) : DB → JsParams → VRes :=
  fun db p => validate fault db p.requisite

/-- The example `#process` in the shape the handler consumes. -/
def exProcess (fault : Fault) (now : Nat) : DB → JsParams → PRes × DB :=
  fun db p => process fault db now ((p.id).getD ("")) ((p.requisite).getD ("")) ((p.amount).getD 0)

/-- The example `#get` in the shape the handler consumes. -/
def exGet (fault : Fault) : DB → String → GRes :=
  fun db i => get fault db i

/-- The example `#cancel` in the shape the handler consumes. -/
def exCancel (fault : Fault) : DB → String → CRes × DB :=
  fun db i => cancel fault db i

/-! ## Iterated calls and operation sequences -/

/-- `n` sequential failure-free `#process` calls with identical
arguments, threading the store. -/
def processN : Nat → DB → Nat → String → String → Int → List PRes × DB
  | 0, db, _, _, _, _ => ([], db)
  | n + 1, db, now, id, r, amt =>
    let step := process Fault.none db now id r amt
    let rest := processN n step.2 now id r amt
    (step.1 :: rest.1, rest.2)

/-- `n` sequential failure-free `#cancel` calls with the same external
id, threading the store. -/
def cancelN : Nat → DB → String → List CRes × DB
  | 0, db, _ => ([], db)
  | n + 1, db, id =>
    let step := cancel Fault.none db id
    let rest := cancelN n step.2 id
    (step.1 :: rest.1, rest.2)

/-- One protocol operation against the store: a transaction application
or a cancellation. -/
inductive Op where
  | apply (id requisite : String) (amount : Int) (now : Nat)
  | cancelOp (id : String)
deriving DecidableEq, Repr

/-- Run one failure-free operation, keeping only the store. -/
def runOp (db : DB) : Op → DB
  | .apply id r amt now => (process Fault.none db now id r amt).2
  | .cancelOp id => (cancel Fault.none db id).2

/-- Run a sequence of operations left to right. -/
def runOps (db : DB) (ops : List Op) : DB :=
  ops.foldl runOp db

/-! ## Balance invariant machinery (for the balance ≥ 0 invariant) -/

/-- The contribution of one ledger row to the credit outstanding against
account `aid`: its amount when it debits that account and is not
cancelled, else 0. -/
def contrib (aid : Nat) (t : Txn) : Int :=
  if t.accountId == aid && !(t.status == TxStatus.cancelled) then t.amount else 0

/-- Total outstanding (non-cancelled) credit of a transactions list
against account `aid`. -/
def activeSum (ts : List Txn) (aid : Nat) : Int :=
  (ts.map (contrib aid)).sum

/-- The store invariant behind `balance ≥ 0`: every ledger amount is
non-negative (`CHECK ("amount" > 0.00)`) and every account's balance
covers the outstanding non-cancelled credit against it. -/
def Inv (db : DB) : Prop :=
  (∀ t ∈ db.transactions, 0 ≤ t.amount) ∧
  (∀ a ∈ db.accounts, activeSum db.transactions a.id ≤ a.balance)

/-! ## Concrete stores -/

/-- The store seeded by `example/db/seed.js`: Dan's account is active,
Andy's is suspended, both balances 0, no transactions. -/
def seedDb : DB :=
  { accounts :=
      [⟨1, ("996700650835"), ("Dan Kerimdzhanov"), AccStatus.active, 0⟩,
       ⟨2, ("996555362358"), ("Andy Romashin"), AccStatus.suspended, 0⟩]
    transactions := []
    nextId := 1 }

/-- The ledger row inserted by a first successful `#process` call. -/
def appliedTxn (db : DB) (now : Nat) (id r : String) (amt : Int) (acct : Account) : Txn :=
  { id := db.nextId
    externalId := id
    accountId := acct.id
    requisite := r
    amount := amt
    status := TxStatus.success
    message := none
    initAt := now
    completed := some now
    cancelled := none }

/-- The store committed by a first successful `#process` call: the new
ledger row appended and the owning account credited by `amt`. -/
def applyState (db : DB) (now : Nat) (id r : String) (amt : Int) (acct : Account) : DB :=
  { accounts := db.accounts.map (fun a =>
      if a.id == acct.id then { a with balance := a.balance + amt } else a)
    transactions := db.transactions ++ [appliedTxn db now id r amt acct]
    nextId := db.nextId + 1 }

/-! ## Branch lemmas for `#process` -/

/-- A failure-free `#process` on a fresh external id inserts the ledger
row and credits the account. -/
theorem process_fresh (db : DB) (now : Nat) (id r : String) (amt : Int) (acct : Account)
    (hfind : db.accounts.find? (fun a => a.requisite == r) = some acct)
    (hamt : 0 < amt)
    (hfresh : db.transactions.any (fun t => t.externalId == id) = false)
    (hnb : ∀ a ∈ db.accounts, 0 ≤ a.balance) :
    process Fault.none db now id r amt
      = (PRes.ok STATUS_OK JsBody.undef, applyState db now id r amt acct) := by
  have hne : ¬ amt ≤ 0 := by omega
  have hb : db.accounts.any (fun a => a.id == acct.id && decide (a.balance + amt < 0)) = false := by
    rw [List.any_eq_false]
    intro a ha
    have h0 := hnb a ha
    simp only [Bool.and_eq_true, decide_eq_true_eq, not_and]
    intro _
    omega
  simp only [process, hfind, hfresh, hb, if_neg hne, Bool.false_eq_true, if_false,
    applyState, appliedTxn]

/-- A failure-free `#process` replay (the external id already has a
ledger row) reports success and leaves the store untouched. -/
theorem process_replay (db : DB) (now : Nat) (id r : String) (amt : Int) (acct : Account)
    (hfind : db.accounts.find? (fun a => a.requisite == r) = some acct)
    (hamt : 0 < amt)
    (hdup : db.transactions.any (fun t => t.externalId == id) = true) :
    process Fault.none db now id r amt = (PRes.ok STATUS_OK JsBody.undef, db) := by
  have hne : ¬ amt ≤ 0 := by omega
  simp only [process, hfind, hdup, if_neg hne, if_true]

/-- Iterated failure-free replays: every call reports success and the
store never changes. -/
theorem processN_replay (n : Nat) (db : DB) (now : Nat) (id r : String)
    (amt : Int) (acct : Account)
    (hfind : db.accounts.find? (fun a => a.requisite == r) = some acct)
    (hamt : 0 < amt)
    (hdup : db.transactions.any (fun t => t.externalId == id) = true) :
    processN n db now id r amt = (List.replicate n (PRes.ok STATUS_OK JsBody.undef), db) := by
  induction n with
  | zero => rfl
  | succ m ih =>
    simp only [processN, process_replay db now id r amt acct hfind hamt hdup, ih,
      List.replicate]

/-- C1: apply/process is idempotent by external id — starting from a
store where the external id is unseen, N ≥ 1 sequential `#process`
calls with identical valid arguments all report the non-error OK
outcome, leave exactly one ledger entry with that external id, and
credit the owning account's balance by `amt` exactly once (the replays'
duplicate-insert uniqueness violations are converted into success
without touching the balance). -/
theorem process_idempotent (n : Nat) (db : DB) (now : Nat) (id r : String)
    (amt : Int) (acct : Account)
    (hn : 1 ≤ n)
    (hfind : db.accounts.find? (fun a => a.requisite == r) = some acct)
    (hamt : 0 < amt)
    (hfresh : db.transactions.any (fun t => t.externalId == id) = false)
    (hnb : ∀ a ∈ db.accounts, 0 ≤ a.balance) :
    processN n db now id r amt
      = (List.replicate n (PRes.ok STATUS_OK JsBody.undef),
         applyState db now id r amt acct) ∧
    ((applyState db now id r amt acct).transactions.filter
        (fun t => t.externalId == id)).length = 1 := by
  obtain ⟨m, rfl⟩ : ∃ m, n = m + 1 := ⟨n - 1, by omega⟩
  have h1 := process_fresh db now id r amt acct hfind hamt hfresh hnb
  have hdup2 : (applyState db now id r amt acct).transactions.any
      (fun t => t.externalId == id) = true := by
    simp [applyState, appliedTxn]
  have hfind2 : (applyState db now id r amt acct).accounts.find? (fun a => a.requisite == r)
      = some { acct with balance := acct.balance + amt } := by
    have hcomp : (fun a : Account => a.requisite == r) ∘
        (fun a : Account => if a.id == acct.id then { a with balance := a.balance + amt } else a)
        = fun a : Account => a.requisite == r := by
      funext a
      by_cases h : a.id = acct.id <;> simp [h]
    simp only [applyState, List.find?_map, hcomp, hfind, Option.map_some]
    simp
  constructor
  · simp only [processN, h1, processN_replay m _ now id r amt _ hfind2 hamt hdup2,
      List.replicate]
  · have hnil : db.transactions.filter (fun t => t.externalId == id) = [] := by
      rw [List.filter_eq_nil_iff]
      intro t ht
      have := List.any_eq_false.mp hfresh t ht
      simpa using this
    simp [applyState, appliedTxn, List.filter_append, hnil]

/-- C1 witness: three identical `#process` calls on the seeded store all
report 200 OK, create one ledger entry, and credit Dan's balance once. -/
theorem process_idempotent_witness :
    processN 3 seedDb 7 ("5648dc5077ba42ee6b13ff6f") ("996700650835") 4595
      = (List.replicate 3 (PRes.ok STATUS_OK JsBody.undef),
         applyState seedDb 7 ("5648dc5077ba42ee6b13ff6f") ("996700650835") 4595
           ⟨1, ("996700650835"), ("Dan Kerimdzhanov"), AccStatus.active, 0⟩) ∧
    ((applyState seedDb 7 ("5648dc5077ba42ee6b13ff6f") ("996700650835") 4595
        ⟨1, ("996700650835"), ("Dan Kerimdzhanov"), AccStatus.active, 0⟩).transactions.filter
        (fun t => t.externalId == ("5648dc5077ba42ee6b13ff6f"))).length = 1 :=
  process_idempotent 3 seedDb 7 ("5648dc5077ba42ee6b13ff6f") ("996700650835") 4595
    ⟨1, ("996700650835"), ("Dan Kerimdzhanov"), AccStatus.active, 0⟩
    (by decide) (by decide) (by decide) (by decide) (by decide)

/-! ## Branch lemmas for `#cancel` -/

/-- The store committed by a first successful `#cancel`: the owning
account debited by the entry's amount and the entry's status set to
"cancelled".  Note that only the status column is written — the
`cancelled` timestamp column keeps its previous value. -/
def cancelState (db : DB) (t0 : Txn) (id : String) : DB :=
  { db with
    accounts := db.accounts.map (fun a =>
      if a.id == t0.accountId then { a with balance := a.balance - t0.amount } else a)
    transactions := db.transactions.map (fun t =>
      if t.externalId == id then { t with status := TxStatus.cancelled } else t) }

/-- A failure-free `#cancel` of an existing, not-yet-cancelled entry
whose account balance covers the reversal commits `cancelState` and
reports success. -/
theorem cancel_success (db : DB) (id : String) (t0 : Txn)
    (hfind : db.transactions.find? (fun t => t.externalId == id) = some t0)
    (hst : (t0.status == TxStatus.cancelled) = false)
    (hbal : ∀ a ∈ db.accounts, a.id = t0.accountId → t0.amount ≤ a.balance) :
    cancel Fault.none db id = (CRes.ok STATUS_OK JsBody.undef, cancelState db t0 id) := by
  have hb : db.accounts.any
      (fun a => a.id == t0.accountId && decide (a.balance - t0.amount < 0)) = false := by
    rw [List.any_eq_false]
    intro a ha
    simp only [Bool.and_eq_true, decide_eq_true_eq, not_and, beq_iff_eq]
    intro he
    have := hbal a ha he
    omega
  simp only [cancel, hfind, hst, hb, Bool.false_eq_true, if_false, cancelState]

/-- After `cancelState`, looking the external id up finds the same entry
with only its status changed (in particular its `cancelled` column is
untouched). -/
theorem cancel_marked_find (db : DB) (id : String) (t0 : Txn)
    (hfind : db.transactions.find? (fun t => t.externalId == id) = some t0) :
    (cancelState db t0 id).transactions.find? (fun t => t.externalId == id)
      = some { t0 with status := TxStatus.cancelled } := by
  have hcomp : (fun t : Txn => t.externalId == id) ∘
      (fun t : Txn => if t.externalId == id then { t with status := TxStatus.cancelled } else t)
      = fun t : Txn => t.externalId == id := by
    funext t
    by_cases h : t.externalId = id <;> simp [h]
  have hid : (t0.externalId == id) = true := by
    have h2 := List.find?_some hfind
    exact h2
  simp only [cancelState, List.find?_map, hcomp, hfind, Option.map_some', hid, if_true]

/-- A failure-free `#cancel` of an already-cancelled entry aborts with
success and leaves the store untouched. -/
theorem cancel_already (db : DB) (id : String) (t0 : Txn)
    (hfind : db.transactions.find? (fun t => t.externalId == id) = some t0)
    (hst : (t0.status == TxStatus.cancelled) = true) :
    cancel Fault.none db id = (CRes.ok STATUS_OK JsBody.undef, db) := by
  simp only [cancel, hfind, hst, if_true]

/-- Iterated failure-free cancels of an already-cancelled entry: every
call reports success and the store never changes. -/
theorem cancelN_already (n : Nat) (db : DB) (id : String) (t0 : Txn)
    (hfind : db.transactions.find? (fun t => t.externalId == id) = some t0)
    (hst : (t0.status == TxStatus.cancelled) = true) :
    cancelN n db id = (List.replicate n (CRes.ok STATUS_OK JsBody.undef), db) := by
  induction n with
  | zero => rfl
  | succ m ih =>
    simp only [cancelN, cancel_already db id t0 hfind hst, ih, List.replicate]

/-- C2: cancel's return contract — for a previously-applied external id
(an existing entry with status "success" whose account covers the
reversal), N ≥ 1 sequential `#cancel` calls all report the non-error OK
outcome, debit the owning account by the entry's amount exactly once,
and after the first call the entry's status is "cancelled" (repeat
cancels abort without state change and still report success); cancelling
an external id with no ledger entry reports not-found and changes
nothing. -/
theorem cancel_contract (n : Nat) (db : DB) (id : String) (t0 : Txn)
    (hn : 1 ≤ n)
    (hfind : db.transactions.find? (fun t => t.externalId == id) = some t0)
    (hst : t0.status = TxStatus.success)
    (hbal : ∀ a ∈ db.accounts, a.id = t0.accountId → t0.amount ≤ a.balance) :
    cancelN n db id
      = (List.replicate n (CRes.ok STATUS_OK JsBody.undef), cancelState db t0 id) ∧
    (cancelState db t0 id).transactions.find? (fun t => t.externalId == id)
      = some { t0 with status := TxStatus.cancelled } ∧
    (cancelState db t0 id).accounts = db.accounts.map (fun a =>
      if a.id == t0.accountId then { a with balance := a.balance - t0.amount } else a) ∧
    (∀ (db2 : DB) (id2 : String),
      db2.transactions.find? (fun t => t.externalId == id2) = none →
      cancel Fault.none db2 id2 = (CRes.ok STATUS_NOT_FOUND JsBody.undef, db2)) := by
  obtain ⟨m, rfl⟩ : ∃ m, n = m + 1 := ⟨n - 1, by omega⟩
  have hst' : (t0.status == TxStatus.cancelled) = false := by
    rw [hst]
    decide
  have h1 := cancel_success db id t0 hfind hst' hbal
  have hfind2 := cancel_marked_find db id t0 hfind
  refine ⟨?_, hfind2, rfl, ?_⟩
  · simp only [cancelN, h1,
      cancelN_already m _ id _ hfind2 rfl, List.replicate]
  · intro db2 id2 hnone
    simp only [cancel, hnone]

/-- The store after `#process` applied `t1` for 45.95 on the seeded
accounts (Dan credited, one success entry completed at time 7). -/
def appliedDb : DB :=
  { accounts :=
      [⟨1, ("996700650835"), ("Dan Kerimdzhanov"), AccStatus.active, 4595⟩,
       ⟨2, ("996555362358"), ("Andy Romashin"), AccStatus.suspended, 0⟩]
    transactions :=
      [⟨1, ("t1"), 1, ("996700650835"), 4595, TxStatus.success, none, 7, some 7, none⟩]
    nextId := 2 }

/-- C2 witness: two sequential cancels of the applied `t1` on the
concrete store both report 200 OK, debit Dan once, mark the entry
cancelled, and a cancel of a missing id reports 404 without changes. -/
theorem cancel_contract_witness :
    cancelN 2 appliedDb ("t1")
      = (List.replicate 2 (CRes.ok STATUS_OK JsBody.undef),
         cancelState appliedDb
           ⟨1, ("t1"), 1, ("996700650835"), 4595, TxStatus.success, none, 7, some 7, none⟩
           ("t1")) ∧
    (cancelState appliedDb
        ⟨1, ("t1"), 1, ("996700650835"), 4595, TxStatus.success, none, 7, some 7, none⟩
        ("t1")).transactions.find? (fun t => t.externalId == ("t1"))
      = some ⟨1, ("t1"), 1, ("996700650835"), 4595, TxStatus.cancelled, none, 7, some 7, none⟩ ∧
    cancel Fault.none seedDb ("nope") = (CRes.ok STATUS_NOT_FOUND JsBody.undef, seedDb) := by
  have h := cancel_contract 2 appliedDb ("t1")
    ⟨1, ("t1"), 1, ("996700650835"), 4595, TxStatus.success, none, 7, some 7, none⟩
    (by decide) (by decide) (by decide) (by decide)
  exact ⟨h.1, h.2.1, h.2.2.2 seedDb ("nope") (by decide)⟩

/-- C3 counterexample: on the concrete store `appliedDb` (entry `t1`
completed at time 7), a failure-free cancel succeeds, but the committed
entry is `{…, status := cancelled, completed := some 7, cancelled :=
none}` — no cancellation timestamp is recorded anywhere (the `cancelled`
column stays NULL because the UPDATE sets only the status), and `get`
then returns a timestamp field equal to 7, the original settlement
completion moment, not the moment of cancellation.  This refutes the
claim that a successful cancel sets the status "together with a
cancellation timestamp" and that the reported timestamp equals the
cancellation moment for status "cancelled". -/
theorem cancel_timestamp_counterexample :
    (cancel Fault.none appliedDb ("t1")).1 = CRes.ok STATUS_OK JsBody.undef ∧
    ((cancel Fault.none appliedDb ("t1")).2).transactions
      = [⟨1, ("t1"), 1, ("996700650835"), 4595, TxStatus.cancelled, none, 7, some 7, none⟩] ∧
    get Fault.none ((cancel Fault.none appliedDb ("t1")).2) ("t1")
      = GRes.ok STATUS_OK (JsBody.ent
          ⟨("t1"), ("996700650835"), 4595, TxStatus.cancelled, none, some 7, 1, none⟩) := by
  decide

/-- C3 amended: a successful cancel sets the entry's status to
"cancelled" but records no cancellation timestamp (the `cancelled`
column is left exactly as it was, and nothing in the implementation ever
writes it), and `get` returns a timestamp field exactly when the entry's
`completed` column is present, always equal to that settlement
completion moment — also for cancelled entries. -/
theorem cancel_sets_status_only (db : DB) (id : String) (t0 : Txn)
    (hfind : db.transactions.find? (fun t => t.externalId == id) = some t0)
    (hst : (t0.status == TxStatus.cancelled) = false)
    (hbal : ∀ a ∈ db.accounts, a.id = t0.accountId → t0.amount ≤ a.balance) :
    (cancel Fault.none db id).1 = CRes.ok STATUS_OK JsBody.undef ∧
    ((cancel Fault.none db id).2).transactions.find? (fun t => t.externalId == id)
      = some { t0 with status := TxStatus.cancelled } ∧
    get Fault.none ((cancel Fault.none db id).2) id
      = GRes.ok STATUS_OK (JsBody.ent
          (Transaction.ofRow { t0 with status := TxStatus.cancelled })) ∧
    (Transaction.ofRow { t0 with status := TxStatus.cancelled }).timestamp = t0.completed ∧
    (∀ row : Txn, (Transaction.ofRow row).timestamp = row.completed) := by
  have h1 := cancel_success db id t0 hfind hst hbal
  have hfind2 := cancel_marked_find db id t0 hfind
  rw [h1]
  refine ⟨rfl, hfind2, ?_, rfl, fun row => rfl⟩
  simp only [get, hfind2]

/-- C3 amended witness: the amended statement evaluated on the concrete
applied store. -/
theorem cancel_sets_status_only_witness :
    (cancel Fault.none appliedDb ("t1")).1 = CRes.ok STATUS_OK JsBody.undef ∧
    ((cancel Fault.none appliedDb ("t1")).2).transactions.find?
        (fun t => t.externalId == ("t1"))
      = some ⟨1, ("t1"), 1, ("996700650835"), 4595, TxStatus.cancelled, none, 7, some 7, none⟩ ∧
    (Transaction.ofRow
        ⟨1, ("t1"), 1, ("996700650835"), 4595, TxStatus.cancelled, none, 7, some 7, none⟩).timestamp
      = some 7 := by
  have h := cancel_sets_status_only appliedDb ("t1")
    ⟨1, ("t1"), 1, ("996700650835"), 4595, TxStatus.success, none, 7, some 7, none⟩
    (by decide) (by decide) (by decide)
  exact ⟨h.1, h.2.1, h.2.2.2.1⟩

/-! ## C6: the list range filter matches the spec's description -/

/-- The spec's description of the `List(rangeStart, rangeEnd?)` filter:
an entry is returned exactly when it has a completion timestamp `c` with
`rangeStart ≤ c ≤ rangeEnd` when an end bound is given, and
`rangeStart ≤ c` otherwise; entries with no completion timestamp are
never returned. -/
def specInRange (rangeStart : Nat) (rangeEnd : Option Nat) (completed : Option Nat) : Bool :=
  match completed with
  | none => false
  | some c =>
    match rangeEnd with
    | some e2 => decide (rangeStart ≤ c ∧ c ≤ e2)
    | none => decide (rangeStart ≤ c)

/-- C6: `#list` returns exactly the entries whose completion timestamp
falls in the queried range — inclusive on both ends when an end bound is
given, `[rangeStart, ∞)` otherwise — and never an entry whose completion
timestamp is absent, for every stored state and query range. -/
theorem list_range_exact (db : DB) (rangeStart : Nat) (rangeEnd : Option Nat) :
    list Fault.none db rangeStart rangeEnd
      = GRes.ok STATUS_OK (JsBody.entList
          ((db.transactions.filter (fun t => specInRange rangeStart rangeEnd t.completed)).map
            Transaction.ofRow)) := by
  have hpred : (fun t : Txn => match t.completed, rangeEnd with
      | some c, some e2 => decide (rangeStart ≤ c) && decide (c ≤ e2)
      | some c, none => decide (rangeStart ≤ c)
      | none, _ => false)
      = fun t : Txn => specInRange rangeStart rangeEnd t.completed := by
    funext t
    cases t.completed <;> cases rangeEnd <;> simp [specInRange]
  simp only [list, hpred]

/-! ## C9: the path id overrides any body id -/

/-- C9: every invocation the POST transactions handler makes — of
`#validate`, of `#process`, and of `#get` — receives the URL path id:
`_.merge({}, req.body, req.params)` gives the route parameter precedence
over any `id` field of the JSON body, so the body can never redirect a
notification to a different external id.  Holds for every
implementation, store, body and path. -/
theorem path_id_precedence
    (validateFn : DB → JsParams → VRes) (processFn : DB → JsParams → PRes × DB)
    (getFn : DB → String → GRes) (parseDate : String → Option Nat)
    (db : DB) (body : JsParams) (pathId : String) :
    (mergedParams body pathId).id = some pathId ∧
    (∀ p ∈ (postTransactions validateFn processFn getFn parseDate db body pathId).validateArgs,
      p.id = some pathId) ∧
    (∀ p ∈ (postTransactions validateFn processFn getFn parseDate db body pathId).processArgs,
      p.id = some pathId) ∧
    (∀ i ∈ (postTransactions validateFn processFn getFn parseDate db body pathId).getArgs,
      i = pathId) := by
  have hid : (mergedParams body pathId).id = some pathId := rfl
  refine ⟨hid, ?_, ?_, ?_⟩
  · intro x hx
    simp only [postTransactions] at hx
    repeat' split at hx
    all_goals simp_all [hid]
  · intro x hx
    simp only [postTransactions] at hx
    repeat' split at hx
    all_goals simp_all [hid]
  · intro x hx
    simp only [postTransactions] at hx
    repeat' split at hx
    all_goals simp_all [hid]

/-! ## C10: falsy amount/timestamp rejection at the transport boundary -/

/-- C10: the transport boundary rejects falsy parameters by JavaScript
truthiness — a merged `amount` that is absent or exactly 0 is answered
400 with "missing parameter \x60amount\x60", and (when the amount is
truthy) an absent-or-empty `timestamp` is answered 400 with "missing
parameter \x60timestamp\x60"; in both cases no implementation method is
ever invoked and the store is untouched, so an amount of exactly 0 can
never reach the ledger through this route. -/
theorem falsy_params_rejected
    (validateFn : DB → JsParams → VRes) (processFn : DB → JsParams → PRes × DB)
    (getFn : DB → String → GRes) (parseDate : String → Option Nat)
    (db : DB) (body : JsParams) (pathId : String) :
    (truthyAmount (mergedParams body pathId).amount = false →
      postTransactions validateFn processFn getFn parseDate db body pathId
        = ⟨[], [], [],
           some ⟨STATUS_BAD_REQUEST, .str ("missing parameter \x60amount\x60")⟩, db⟩) ∧
    (truthyAmount (mergedParams body pathId).amount = true →
      truthyString (mergedParams body pathId).timestamp = false →
      postTransactions validateFn processFn getFn parseDate db body pathId
        = ⟨[], [], [],
           some ⟨STATUS_BAD_REQUEST, .str ("missing parameter \x60timestamp\x60")⟩, db⟩) ∧
    truthyAmount (some 0) = false ∧
    truthyAmount none = false ∧
    truthyString none = false := by
  refine ⟨?_, ?_, rfl, rfl, rfl⟩
  · intro h
    simp only [postTransactions, h, Bool.not_false, if_true]
  · intro h1 h2
    simp only [postTransactions, h1, h2, Bool.not_true, Bool.not_false,
      Bool.false_eq_true, if_false, if_true]

/-- C10 witness: a request with `amount = 0` on the seeded store is
answered 400 "missing parameter \x60amount\x60" before anything runs,
and a request with a truthy amount but no timestamp is answered 400
"missing parameter \x60timestamp\x60". -/
theorem falsy_params_rejected_witness :
    postTransactions (exValidate Fault.none) (exProcess Fault.none 7) (exGet Fault.none)
        (fun _ => some 0) seedDb ⟨none, some ("996700650835"), some 0, some ("x")⟩ ("t1")
      = ⟨[], [], [],
         some ⟨STATUS_BAD_REQUEST, .str ("missing parameter \x60amount\x60")⟩, seedDb⟩ ∧
    postTransactions (exValidate Fault.none) (exProcess Fault.none 7) (exGet Fault.none)
        (fun _ => some 0) seedDb ⟨none, some ("996700650835"), some 4595, none⟩ ("t1")
      = ⟨[], [], [],
         some ⟨STATUS_BAD_REQUEST, .str ("missing parameter \x60timestamp\x60")⟩, seedDb⟩ := by
  constructor
  · exact (falsy_params_rejected (exValidate Fault.none) (exProcess Fault.none 7)
      (exGet Fault.none) (fun _ => some 0) seedDb
      ⟨none, some ("996700650835"), some 0, some ("x")⟩ ("t1")).1 (by decide)
  · exact (falsy_params_rejected (exValidate Fault.none) (exProcess Fault.none 7)
      (exGet Fault.none) (fun _ => some 0) seedDb
      ⟨none, some ("996700650835"), some 4595, none⟩ ("t1")).2.1 (by decide) (by decide)

/-! ## C4: validate gates every process call -/

/-- C4: on every POST transactions request that passes the transport
parameter checks — including replays bearing an already-applied external
id, since nothing here depends on the store — the handler invokes
`#validate` exactly once, with the merged params, before `#process`;
whenever validation does not report OK its status and body are responded
verbatim and `#process` is never invoked (likewise on a validate error);
and the example `#validate` answers a requisite owned by a suspended
account with FORBIDDEN and the non-empty message "Please activate your
account". -/
theorem validate_gate
    (validateFn : DB → JsParams → VRes) (processFn : DB → JsParams → PRes × DB)
    (getFn : DB → String → GRes) (parseDate : String → Option Nat)
    (db : DB) (body : JsParams) (pathId : String) (ts : Nat)
    (hAmt : truthyAmount (mergedParams body pathId).amount = true)
    (hTs : truthyString (mergedParams body pathId).timestamp = true)
    (hParse : parseDate (((mergedParams body pathId).timestamp).getD ("")) = some ts) :
    (postTransactions validateFn processFn getFn parseDate db body pathId).validateArgs
      = [mergedParams body pathId] ∧
    (∀ st b, validateFn db (mergedParams body pathId) = VRes.ok st b → st ≠ STATUS_OK →
      (postTransactions validateFn processFn getFn parseDate db body pathId).processArgs = [] ∧
      (postTransactions validateFn processFn getFn parseDate db body pathId).resp
        = some (respond st b)) ∧
    (∀ e, validateFn db (mergedParams body pathId) = VRes.fail e →
      (postTransactions validateFn processFn getFn parseDate db body pathId).processArgs = []) ∧
    (∀ (d : DB) (p : Option String) (acct : Account),
      d.accounts.find? (fun a => some a.requisite == p) = some acct →
      acct.status = AccStatus.suspended →
      validate Fault.none d p
        = VRes.ok STATUS_FORBIDDEN (.str ("Please activate your account"))) ∧
    ("Please activate your account" : String) ≠ ("") := by
  refine ⟨?_, ?_, ?_, ?_, by decide⟩
  · simp only [postTransactions, hAmt, hTs, hParse]
    repeat' split
    all_goals simp_all
  · intro st b hv hne
    simp only [postTransactions, hAmt, hTs, hParse, hv]
    have hb : (st != STATUS_OK) = true := by
      simp only [bne_iff_ne]
      exact hne
    simp [hb]
  · intro e hv
    simp only [postTransactions, hAmt, hTs, hParse, hv]
    simp
  · intro d p acct hfindA hsusp
    simp only [validate, hfindA, hsusp]
    rfl

/-- C4 witness: a passing request for the suspended account
"996555362358" on the seeded store — validate is invoked exactly once,
answers 403 "Please activate your account", the rejection is responded
verbatim, and the engine is never invoked. -/
theorem validate_gate_witness :
    (postTransactions (exValidate Fault.none) (exProcess Fault.none 7) (exGet Fault.none)
        (fun _ => some 0) seedDb ⟨none, some ("996555362358"), some 4595, some ("x")⟩
        ("t1")).validateArgs
      = [mergedParams ⟨none, some ("996555362358"), some 4595, some ("x")⟩ ("t1")] ∧
    (postTransactions (exValidate Fault.none) (exProcess Fault.none 7) (exGet Fault.none)
        (fun _ => some 0) seedDb ⟨none, some ("996555362358"), some 4595, some ("x")⟩
        ("t1")).processArgs = [] ∧
    (postTransactions (exValidate Fault.none) (exProcess Fault.none 7) (exGet Fault.none)
        (fun _ => some 0) seedDb ⟨none, some ("996555362358"), some 4595, some ("x")⟩
        ("t1")).resp
      = some (respond STATUS_FORBIDDEN (.str ("Please activate your account"))) := by
  have h := validate_gate (exValidate Fault.none) (exProcess Fault.none 7) (exGet Fault.none)
    (fun _ => some 0) seedDb ⟨none, some ("996555362358"), some 4595, some ("x")⟩ ("t1") 0
    (by decide) (by decide) rfl
  have h2 := h.2.1 STATUS_FORBIDDEN (.str ("Please activate your account"))
    (by decide) (by decide)
  exact ⟨h.1, h2.1, h2.2⟩

/-! ## C5: two-tier completion protocol -/

/-- C5: for both orchestrated operations, an immediately-terminal OK
engine outcome triggers exactly one `#get` on the external id whose
outcome is returned to the caller, while any other non-error engine
status (such as the asynchronous 202 acknowledgment) is responded
directly and `#get` is never invoked.  Stated for every implementation:
the POST handler after a passing validate, and the DELETE handler
unconditionally. -/
theorem completion_protocol
    (validateFn : DB → JsParams → VRes) (processFn : DB → JsParams → PRes × DB)
    (getFn : DB → String → GRes) (cancelFn : DB → String → CRes × DB)
    (parseDate : String → Option Nat)
    (db : DB) (body : JsParams) (pathId : String) (ts : Nat) (vBody : JsBody)
    (hAmt : truthyAmount (mergedParams body pathId).amount = true)
    (hTs : truthyString (mergedParams body pathId).timestamp = true)
    (hParse : parseDate (((mergedParams body pathId).timestamp).getD ("")) = some ts)
    (hv : validateFn db (mergedParams body pathId) = VRes.ok STATUS_OK vBody) :
    (∀ pBody db2,
      processFn db (mergedParams body pathId) = (PRes.ok STATUS_OK pBody, db2) →
      (postTransactions validateFn processFn getFn parseDate db body pathId).getArgs
        = [((mergedParams body pathId).id).getD ("")] ∧
      (postTransactions validateFn processFn getFn parseDate db body pathId).resp
        = some (match getFn db2 (((mergedParams body pathId).id).getD ("")) with
            | .fail e => ⟨STATUS_INTERNAL_SERVER_ERROR, .str (errToString e)⟩
            | .ok gStatus gBody => respond gStatus gBody)) ∧
    (∀ st pBody db2,
      processFn db (mergedParams body pathId) = (PRes.ok st pBody, db2) →
      st ≠ STATUS_OK →
      (postTransactions validateFn processFn getFn parseDate db body pathId).getArgs = [] ∧
      (postTransactions validateFn processFn getFn parseDate db body pathId).resp
        = some (respond st pBody)) ∧
    (∀ (d : DB) (pid : String) (cBody : JsBody) (d2 : DB),
      cancelFn d pid = (CRes.ok STATUS_OK cBody, d2) →
      (deleteTransactions cancelFn getFn d pid).getArgs = [pid] ∧
      (deleteTransactions cancelFn getFn d pid).resp
        = some (match getFn d2 pid with
            | .fail e => ⟨STATUS_INTERNAL_SERVER_ERROR, .str (errToString e)⟩
            | .ok gStatus gBody => ⟨gStatus, render gBody⟩)) ∧
    (∀ (d : DB) (pid : String) (st : Nat) (cBody : JsBody) (d2 : DB),
      cancelFn d pid = (CRes.ok st cBody, d2) →
      st ≠ STATUS_OK →
      (deleteTransactions cancelFn getFn d pid).getArgs = [] ∧
      (deleteTransactions cancelFn getFn d pid).resp = some (respond st cBody)) := by
  refine ⟨?_, ?_, ?_, ?_⟩
  · intro pBody db2 hp
    simp only [postTransactions, hAmt, hTs, hParse, hv, hp]
    cases hg : getFn db2 (((mergedParams body pathId).id).getD ("")) <;> simp [hg]
  · intro st pBody db2 hp hne
    have hb : (st == STATUS_OK) = false := by
      simp only [beq_eq_false_iff_ne, ne_eq]
      exact hne
    simp only [postTransactions, hAmt, hTs, hParse, hv, hp, hb]
    simp
  · intro d pid cBody d2 hc
    simp only [deleteTransactions, hc]
    cases hg : getFn d2 pid <;> simp [hg]
  · intro d pid st cBody d2 hc hne
    have hb : (st == STATUS_OK) = false := by
      simp only [beq_eq_false_iff_ne, ne_eq]
      exact hne
    simp only [deleteTransactions, hc, hb]
    simp

/-- C5 witness: on the applied store, the example engine's OK outcomes
drive exactly one retrieval for both a replayed process and a first
cancel, and a hypothetical 202-accepted cancel outcome is acknowledged
directly without retrieval. -/
theorem completion_protocol_witness :
    (postTransactions (exValidate Fault.none) (exProcess Fault.none 9) (exGet Fault.none)
        (fun _ => some 0) appliedDb ⟨none, some ("996700650835"), some 4595, some ("x")⟩
        ("t1")).getArgs = [("t1")] ∧
    (deleteTransactions (exCancel Fault.none) (exGet Fault.none) appliedDb ("t1")).getArgs
      = [("t1")] ∧
    (deleteTransactions (fun d _ => (CRes.ok STATUS_ACCEPTED JsBody.undef, d))
        (exGet Fault.none) appliedDb ("t1")).getArgs = [] ∧
    (deleteTransactions (fun d _ => (CRes.ok STATUS_ACCEPTED JsBody.undef, d))
        (exGet Fault.none) appliedDb ("t1")).resp
      = some (respond STATUS_ACCEPTED JsBody.undef) := by
  have h := completion_protocol (exValidate Fault.none) (exProcess Fault.none 9)
    (exGet Fault.none) (exCancel Fault.none) (fun _ => some 0) appliedDb
    ⟨none, some ("996700650835"), some 4595, some ("x")⟩ ("t1") 0
    (.str ("Dan Kerimdzhanov")) (by decide) (by decide) rfl (by decide)
  have hacc := completion_protocol (exValidate Fault.none) (exProcess Fault.none 9)
    (exGet Fault.none) (fun d _ => (CRes.ok STATUS_ACCEPTED JsBody.undef, d))
    (fun _ => some 0) appliedDb
    ⟨none, some ("996700650835"), some 4595, some ("x")⟩ ("t1") 0
    (.str ("Dan Kerimdzhanov")) (by decide) (by decide) rfl (by decide)
  refine ⟨?_, ?_, ?_, ?_⟩
  · exact (h.1 JsBody.undef appliedDb (by decide)).1
  · exact (h.2.2.1 appliedDb ("t1") JsBody.undef (cancelState appliedDb
      ⟨1, ("t1"), 1, ("996700650835"), 4595, TxStatus.success, none, 7, some 7, none⟩
      ("t1")) (by decide)).1
  · exact (hacc.2.2.2 appliedDb ("t1") STATUS_ACCEPTED JsBody.undef appliedDb rfl
      (by decide)).1
  · exact (hacc.2.2.2 appliedDb ("t1") STATUS_ACCEPTED JsBody.undef appliedDb rfl
      (by decide)).2

/-! ## C7: non-duplicate storage failures abort and surface as INTERNAL -/

/-- C7: during `#process`, any storage failure other than the expected
external-id uniqueness conflict — a connection, account-select,
non-duplicate insert, balance-update or commit failure — aborts the
attempted writes (the store is returned unchanged, so neither the ledger
entry nor the balance change is visible) and reaches the callback as the
error, which the POST handler surfaces as a 500 INTERNAL response
carrying the failure's description verbatim, never as a success. -/
theorem storage_failure_surfaced
    (db : DB) (now : Nat) (id r : String) (amt : Int) (acct : Account)
    (f : Fault) (e : DbError)
    (hfind : db.accounts.find? (fun a => a.requisite == r) = some acct)
    (hamt : 0 < amt)
    (hfresh : db.transactions.any (fun t => t.externalId == id) = false)
    (hf : f = Fault.onConnect e ∨ f = Fault.onSelect e ∨
          (f = Fault.onInsert e ∧ isDuplicateIdConstraint e = false) ∨
          f = Fault.onBalance e ∨ f = Fault.onCommit e) :
    process f db now id r amt = (PRes.fail e, db) ∧
    (∀ (validateFn : DB → JsParams → VRes) (getFn : DB → String → GRes)
       (processFn : DB → JsParams → PRes × DB) (parseDate : String → Option Nat)
       (body : JsParams) (pathId : String) (db0 db2 : DB) (ts : Nat) (vb : JsBody),
      truthyAmount (mergedParams body pathId).amount = true →
      truthyString (mergedParams body pathId).timestamp = true →
      parseDate (((mergedParams body pathId).timestamp).getD ("")) = some ts →
      validateFn db0 (mergedParams body pathId) = VRes.ok STATUS_OK vb →
      processFn db0 (mergedParams body pathId) = (PRes.fail e, db2) →
      (postTransactions validateFn processFn getFn parseDate db0 body pathId).resp
        = some ⟨STATUS_INTERNAL_SERVER_ERROR, .str (errToString e)⟩) ∧
    STATUS_INTERNAL_SERVER_ERROR ≠ STATUS_OK := by
  have hne : ¬ amt ≤ 0 := by omega
  refine ⟨?_, ?_, by decide⟩
  · rcases hf with rfl | rfl | ⟨rfl, hd⟩ | rfl | rfl
    · simp only [process]
    · simp only [process]
    · simp only [process, hfind, hfresh, hd, if_neg hne, Bool.false_eq_true, if_false]
    · simp only [process, hfind, hfresh, if_neg hne, Bool.false_eq_true, if_false]
    · simp only [process, hfind, hfresh, if_neg hne, Bool.false_eq_true, if_false]
  · intro validateFn getFn processFn parseDate body pathId db0 db2 ts vb
      hAmt hTs hParse hv hp
    simp only [postTransactions, hAmt, hTs, hParse, hv, hp]
    simp

/-- C7 witness: an injected commit failure on a fresh process leaves the
seeded store untouched and reports the error, and the handler turns it
into a 500 response carrying the message. -/
theorem storage_failure_surfaced_witness :
    process (Fault.onCommit ⟨57, none, ("connection reset")⟩) seedDb 7
        ("t1") ("996700650835") 4595
      = (PRes.fail ⟨57, none, ("connection reset")⟩, seedDb) ∧
    (postTransactions (exValidate Fault.none)
        (exProcess (Fault.onCommit ⟨57, none, ("connection reset")⟩) 7)
        (exGet Fault.none) (fun _ => some 0) seedDb
        ⟨none, some ("996700650835"), some 4595, some ("x")⟩ ("t1")).resp
      = some ⟨STATUS_INTERNAL_SERVER_ERROR, .str ("connection reset")⟩ := by
  have h := storage_failure_surfaced seedDb 7 ("t1") ("996700650835") 4595
    ⟨1, ("996700650835"), ("Dan Kerimdzhanov"), AccStatus.active, 0⟩
    (Fault.onCommit ⟨57, none, ("connection reset")⟩) ⟨57, none, ("connection reset")⟩
    (by decide) (by decide) (by decide)
    (Or.inr (Or.inr (Or.inr (Or.inr rfl))))
  refine ⟨h.1, ?_⟩
  exact h.2.1 (exValidate Fault.none) (exGet Fault.none)
    (exProcess (Fault.onCommit ⟨57, none, ("connection reset")⟩) 7) (fun _ => some 0)
    ⟨none, some ("996700650835"), some 4595, some ("x")⟩ ("t1") seedDb seedDb 0
    (.str ("Dan Kerimdzhanov")) (by decide) (by decide) rfl (by decide) (by decide)

/-! ## C8: balances never go negative -/

/-- Every contribution is non-negative when the row's amount is. -/
theorem contrib_nonneg (aid : Nat) (t : Txn) (h : 0 ≤ t.amount) : 0 ≤ contrib aid t := by
  unfold contrib
  split
  · exact h
  · exact le_refl 0

/-- The outstanding credit is non-negative when all amounts are. -/
theorem activeSum_nonneg (ts : List Txn) (aid : Nat) (h : ∀ t ∈ ts, 0 ≤ t.amount) :
    0 ≤ activeSum ts aid := by
  induction ts with
  | nil => simp [activeSum]
  | cons a l ih =>
    have h1 := contrib_nonneg aid a (h a (by simp))
    have h2 := ih (fun t ht => h t (by simp [ht]))
    simp only [activeSum, List.map_cons, List.sum_cons] at h2 ⊢
    omega

/-- Appending one row adds its contribution to the outstanding credit. -/
theorem activeSum_append (ts : List Txn) (t : Txn) (aid : Nat) :
    activeSum (ts ++ [t]) aid = activeSum ts aid + contrib aid t := by
  simp [activeSum]

/-- Marking rows cancelled can only lower the outstanding credit. -/
theorem activeSum_mark_le (ts : List Txn) (id : String) (aid : Nat)
    (h : ∀ t ∈ ts, 0 ≤ t.amount) :
    activeSum (ts.map (fun t =>
        if t.externalId == id then { t with status := TxStatus.cancelled } else t)) aid
      ≤ activeSum ts aid := by
  induction ts with
  | nil => simp [activeSum]
  | cons a l ih =>
    have hl := ih (fun t ht => h t (by simp [ht]))
    have ha : contrib aid
        (if a.externalId == id then { a with status := TxStatus.cancelled } else a)
        ≤ contrib aid a := by
      by_cases hc : (a.externalId == id) = true
      · rw [if_pos hc]
        have h0 : contrib aid { a with status := TxStatus.cancelled } = 0 := by
          simp [contrib]
        rw [h0]
        exact contrib_nonneg aid a (h a (by simp))
      · rw [if_neg hc]
    simp only [List.map_cons, activeSum, List.sum_cons] at hl ha ⊢
    omega

/-- Cancelling a found, not-yet-cancelled row lowers the outstanding
credit against its account by at least that row's amount. -/
theorem activeSum_cancel_le (ts : List Txn) (id : String) (t0 : Txn)
    (hfind : ts.find? (fun t => t.externalId == id) = some t0)
    (hst : (t0.status == TxStatus.cancelled) = false)
    (hamts : ∀ t ∈ ts, 0 ≤ t.amount) :
    activeSum (ts.map (fun t =>
        if t.externalId == id then { t with status := TxStatus.cancelled } else t)) t0.accountId
      ≤ activeSum ts t0.accountId - t0.amount := by
  induction ts with
  | nil => simp at hfind
  | cons a l ih =>
    by_cases hc : (a.externalId == id) = true
    · have ha : a = t0 := by
        simp only [List.find?, hc, Option.some.injEq] at hfind
        exact hfind
      subst ha
      have hmark : activeSum (l.map (fun t =>
          if t.externalId == id then { t with status := TxStatus.cancelled } else t)) a.accountId
          ≤ activeSum l a.accountId :=
        activeSum_mark_le l id a.accountId (fun t ht => hamts t (by simp [ht]))
      have hc0 : contrib a.accountId { a with status := TxStatus.cancelled } = 0 := by
        simp [contrib]
      have hca : contrib a.accountId a = a.amount := by
        simp [contrib, hst]
      simp only [List.map_cons, if_pos hc, activeSum, List.sum_cons] at hmark ⊢
      simp only [activeSum] at hc0 hca
      rw [hc0, hca]
      omega
    · have hc' : (a.externalId == id) = false := by
        simpa using hc
      have hfind' : l.find? (fun t => t.externalId == id) = some t0 := by
        simp only [List.find?, hc'] at hfind
        exact hfind
      have hl := ih hfind' (fun t ht => hamts t (by simp [ht]))
      have hfa : (if a.externalId == id then { a with status := TxStatus.cancelled } else a)
          = a := by
        rw [if_neg hc]
      simp only [List.map_cons, hfa, activeSum, List.sum_cons] at hl ⊢
      omega

/-- `#process` either leaves the store untouched or commits
`applyState` for a positive amount. -/
theorem process_state_cases (f : Fault) (db : DB) (now : Nat) (id r : String) (amt : Int) :
    (process f db now id r amt).2 = db ∨
    ∃ acct, db.accounts.find? (fun a => a.requisite == r) = some acct ∧
      0 < amt ∧
      (process f db now id r amt).2 = applyState db now id r amt acct := by
  unfold process
  repeat' split
  all_goals try (left; rfl)
  all_goals
    right
    exact ⟨_, (by assumption), (by omega), rfl⟩

/-- `#cancel` either leaves the store untouched or commits
`cancelState` for a found, not-yet-cancelled row. -/
theorem cancel_state_cases (f : Fault) (db : DB) (id : String) :
    (cancel f db id).2 = db ∨
    ∃ t0, db.transactions.find? (fun t => t.externalId == id) = some t0 ∧
      (t0.status == TxStatus.cancelled) = false ∧
      (cancel f db id).2 = cancelState db t0 id := by
  unfold cancel
  repeat' split
  all_goals try (left; rfl)
  all_goals
    right
    exact ⟨_, (by assumption), (by simp_all), rfl⟩

/-- `applyState` preserves the invariant. -/
theorem inv_applyState (db : DB) (now : Nat) (id r : String) (amt : Int) (acct : Account)
    (hamt : 0 < amt) (hInv : Inv db) : Inv (applyState db now id r amt acct) := by
  obtain ⟨hAmts, hSum⟩ := hInv
  constructor
  · intro t ht
    simp only [applyState, List.mem_append, List.mem_singleton] at ht
    rcases ht with ht | rfl
    · exact hAmts t ht
    · simp only [appliedTxn]
      omega
  · intro a' ha'
    simp only [applyState, List.mem_map] at ha'
    obtain ⟨a, ha, rfl⟩ := ha'
    have hs := hSum a ha
    simp only [applyState]
    by_cases hid : (a.id == acct.id) = true
    · rw [if_pos hid]
      have hid' : a.id = acct.id := by
        simpa using hid
      have hcontrib : contrib a.id (appliedTxn db now id r amt acct) = amt := by
        simp [contrib, appliedTxn, hid']
      show activeSum (db.transactions ++ [appliedTxn db now id r amt acct]) a.id
        ≤ a.balance + amt
      rw [activeSum_append, hcontrib]
      omega
    · rw [if_neg hid]
      have hid' : ¬ acct.id = a.id := by
        simp only [beq_iff_eq] at hid
        omega
      have hcontrib : contrib a.id (appliedTxn db now id r amt acct) = 0 := by
        simp [contrib, appliedTxn, hid']
      show activeSum (db.transactions ++ [appliedTxn db now id r amt acct]) a.id
        ≤ a.balance
      rw [activeSum_append, hcontrib]
      omega

/-- `cancelState` preserves the invariant. -/
theorem inv_cancelState (db : DB) (id : String) (t0 : Txn)
    (hfind : db.transactions.find? (fun t => t.externalId == id) = some t0)
    (hst : (t0.status == TxStatus.cancelled) = false)
    (hInv : Inv db) : Inv (cancelState db t0 id) := by
  obtain ⟨hAmts, hSum⟩ := hInv
  constructor
  · intro t ht
    simp only [cancelState, List.mem_map] at ht
    obtain ⟨t1, ht1, rfl⟩ := ht
    have := hAmts t1 ht1
    by_cases hc : (t1.externalId == id) = true <;> simp [hc, this]
  · intro a' ha'
    simp only [cancelState, List.mem_map] at ha'
    obtain ⟨a, ha, rfl⟩ := ha'
    have hs := hSum a ha
    simp only [cancelState]
    by_cases hid : (a.id == t0.accountId) = true
    · rw [if_pos hid]
      have hid' : a.id = t0.accountId := by
        simpa using hid
      have hle := activeSum_cancel_le db.transactions id t0 hfind hst hAmts
      show activeSum (db.transactions.map (fun t =>
          if t.externalId == id then { t with status := TxStatus.cancelled } else t)) a.id
        ≤ a.balance - t0.amount
      rw [hid'] at hs ⊢
      omega
    · rw [if_neg hid]
      have hle := activeSum_mark_le db.transactions id a.id hAmts
      show activeSum (db.transactions.map (fun t =>
          if t.externalId == id then { t with status := TxStatus.cancelled } else t)) a.id
        ≤ a.balance
      omega

/-- Every protocol operation preserves the invariant. -/
theorem inv_runOp (db : DB) (op : Op) (hInv : Inv db) : Inv (runOp db op) := by
  cases op with
  | apply id r amt now =>
    show Inv (process Fault.none db now id r amt).2
    rcases process_state_cases Fault.none db now id r amt with h | ⟨acct, _, hamt, h⟩
    · rw [h]; exact hInv
    · rw [h]; exact inv_applyState db now id r amt acct hamt hInv
  | cancelOp id =>
    show Inv (cancel Fault.none db id).2
    rcases cancel_state_cases Fault.none db id with h | ⟨t0, hfind, hst, h⟩
    · rw [h]; exact hInv
    · rw [h]; exact inv_cancelState db id t0 hfind hst hInv

/-- Operation sequences preserve the invariant. -/
theorem inv_runOps (db : DB) (ops : List Op) (hInv : Inv db) : Inv (runOps db ops) := by
  induction ops generalizing db with
  | nil => exact hInv
  | cons op rest ih => exact ih (runOp db op) (inv_runOp db op hInv)

/-- Under the invariant every balance is non-negative. -/
theorem inv_balances_nonneg (db : DB) (hInv : Inv db) : ∀ a ∈ db.accounts, 0 ≤ a.balance := by
  intro a ha
  have h1 := hInv.2 a ha
  have h2 := activeSum_nonneg db.transactions a.id hInv.1
  omega

/-- C8: every account's balance stays ≥ 0 at all observable times —
starting from a store with an empty ledger and non-negative balances, no
sequence of apply and cancel operations (in particular any
protocol-respecting one in which each cancel follows its apply) ever
drives any balance below zero, at any prefix of the sequence. -/
theorem balances_nonneg_always (db : DB) (ops : List Op)
    (hTx : db.transactions = [])
    (hBal : ∀ a ∈ db.accounts, 0 ≤ a.balance) :
    ∀ (k : Nat), ∀ a ∈ (runOps db (ops.take k)).accounts, 0 ≤ a.balance := by
  have hInv : Inv db := by
    constructor
    · intro t ht
      rw [hTx] at ht
      simp at ht
    · intro a ha
      rw [hTx]
      simpa [activeSum] using hBal a ha
  intro k
  exact inv_balances_nonneg _ (inv_runOps db (ops.take k) hInv)

/-- A concrete operation sequence: apply, double cancel, another apply,
and a cancel of a never-applied id. -/
def opsW : List Op :=
  [Op.apply ("t1") ("996700650835") 4595 7,
   Op.cancelOp ("t1"),
   Op.cancelOp ("t1"),
   Op.apply ("t2") ("996700650835") 61728 8,
   Op.cancelOp ("t9")]

/-- C8 witness: after any three steps of the concrete sequence on the
seeded store, every balance is still non-negative. -/
theorem balances_nonneg_always_witness :
    ((runOps seedDb (opsW.take 3)).accounts.all (fun a => decide (0 ≤ a.balance))) = true := by
  rw [List.all_eq_true]
  intro a ha
  exact decide_eq_true (balances_nonneg_always seedDb opsW rfl (by decide) 3 a ha)

end UmaiReceiver
